import Mathlib

/-!
Verification of the braincanary progressive-rollout core against its
natural-language specification.  The definitions below are shallow
embeddings of the TypeScript sources:

* `packages/core/src/state/machine.ts`      — lifecycle state machine
* `packages/core/src/state/types.ts`        — snapshot data model
* router `chooseVersion`                    — deterministic traffic router
* `packages/core/src/statistics/*`          — Welch t-test and gate evaluator
* score monitor `poll`                      — watermark-driven aggregation
* `StageController`                         — stage lifecycle controller

Floating-point numbers are modelled as real numbers; machine timestamps
as integers (milliseconds); the router's random draw as a rational in
[0,1) so router decisions stay decidable.  Fallible code (`throw`)
returns `Except`/is modelled by explicit success flags.
-/

namespace BrainCanary

/-! ## Lifecycle state machine (`state/machine.ts`) -/

inductive LifecycleState where
  | IDLE | PENDING | STAGE | PAUSED | ROLLING_BACK | ROLLED_BACK | PROMOTED
deriving DecidableEq, Repr, Fintype

/-- `final_state` column values: `"PROMOTED" | "ROLLED_BACK"`. -/
inductive FinalState where
  | PROMOTED | ROLLED_BACK
deriving DecidableEq, Repr

open LifecycleState in
/-- The `ALLOWED` table of `state/machine.ts`. -/
def allowedTargets : LifecycleState → List LifecycleState
  | IDLE => [PENDING]
  | PENDING => [STAGE, ROLLING_BACK]
  | STAGE => [STAGE, PAUSED, ROLLING_BACK, PROMOTED]
  | PAUSED => [STAGE, ROLLING_BACK]
  | ROLLING_BACK => [ROLLED_BACK]
  | ROLLED_BACK => []
  | PROMOTED => []

/-- `ALLOWED[from].includes(to)` from `assertTransitionAllowed`. -/
def transitionAllowed (f t : LifecycleState) : Bool :=
  (allowedTargets f).contains t

/-- `assertTransitionAllowed` throws on a disallowed pair; embedded as `Except`. -/
def assertTransitionAllowed (f t : LifecycleState) : Except String Unit :=
  if transitionAllowed f t then Except.ok () else Except.error "Invalid transition"

/-! ## Data model (`state/types.ts`, `config/schema.ts`)

Only the configuration fields the core reads are modelled.  Stage
durations are carried already parsed to milliseconds (the controller
always applies `parseDuration` to the config string before use). -/

inductive Comparison where
  | not_worse_than_baseline | better_than_baseline | absolute_only
deriving DecidableEq, Repr

structure Gate where
  scorer : String
  threshold : ℝ
  comparison : Comparison
  confidence : ℝ

structure DeploymentStage where
  weight : Int
  /-- `duration?` in milliseconds (parsed). -/
  duration : Option Int := none
  min_samples : Nat
  gates : List Gate

structure RollbackConfig where
  on_score_drop : ℝ
  on_error_rate : ℝ

/-- `config.deployment` — the subset of `DeploymentConfig` the controller reads. -/
structure DeploymentConfig where
  name : String
  stages : List DeploymentStage
  rollback : RollbackConfig

structure DeploymentSnapshot where
  id : String
  name : String
  config : DeploymentConfig
  state : LifecycleState
  stageIndex : Nat
  stageEnteredAt : Int
  startedAt : Int
  completedAt : Option Int := none
  finalState : Option FinalState := none
  pausedStageIndex : Option Nat := none
  canaryWeight : Int
  reason : Option String := none

/-- `Partial<DeploymentSnapshot>`: every field optional.  An optional
snapshot field patched to `null`/absent is a `some none`. -/
structure SnapshotPatch where
  id : Option String := none
  name : Option String := none
  config : Option DeploymentConfig := none
  state : Option LifecycleState := none
  stageIndex : Option Nat := none
  stageEnteredAt : Option Int := none
  startedAt : Option Int := none
  completedAt : Option (Option Int) := none
  finalState : Option (Option FinalState) := none
  pausedStageIndex : Option (Option Nat) := none
  canaryWeight : Option Int := none
  reason : Option (Option String) := none

/-- The spread `{ ...snapshot, state: to, ...patch }`: a later spread wins,
so a patch that names `state` overrides the `to` argument. -/
def applyPatch (s : DeploymentSnapshot) (tgt : LifecycleState) (p : SnapshotPatch) :
    DeploymentSnapshot where
  id := p.id.getD s.id
  name := p.name.getD s.name
  config := p.config.getD s.config
  state := p.state.getD tgt
  stageIndex := p.stageIndex.getD s.stageIndex
  stageEnteredAt := p.stageEnteredAt.getD s.stageEnteredAt
  startedAt := p.startedAt.getD s.startedAt
  completedAt := p.completedAt.getD s.completedAt
  finalState := p.finalState.getD s.finalState
  pausedStageIndex := p.pausedStageIndex.getD s.pausedStageIndex
  canaryWeight := p.canaryWeight.getD s.canaryWeight
  reason := p.reason.getD s.reason

/-- `transitionSnapshot(snapshot, to, patch)`. -/
def transitionSnapshot (s : DeploymentSnapshot) (tgt : LifecycleState)
    (p : SnapshotPatch) : Except String DeploymentSnapshot :=
  (assertTransitionAllowed s.state tgt).map fun _ => applyPatch s tgt p

/-! ## Traffic router (`chooseVersion`) -/

inductive Version where
  | baseline | canary
deriving DecidableEq, Repr

structure RoutingDecision where
  version : Version
  canaryWeight : Int
  stageIndex : Nat
deriving DecidableEq, Repr

/-- Modelled from the spec: the implementation of `stableHash`
(`packages/core/src/utils/hash.ts`) is not part of the sources; the spec
requires only a fixed, deterministic, non-cryptographic string hash, so a
djb2-style hash on the code points, reduced mod 2^32, is used. -/
def stableHash (s : String) : Nat :=
  s.data.foldl (fun h c => (h * 33 + c.toNat) % 2 ^ 32) 5381

/-- The bucket computation of `chooseVersion`.  The JS guard
`if (stickyValue)` is truthiness: an empty-string sticky value falls
through to the random path. -/
def routerBucket (stickyValue : Option String) (random : ℚ) : Int :=
  match stickyValue with
  | some sv => if sv ≠ "" then (stableHash sv % 100 : Nat) else (random * 100).floor
  | none => (random * 100).floor

/-- `chooseVersion(snapshot, stickyValue, random)`. -/
def chooseVersion (snapshot : Option DeploymentSnapshot)
    (stickyValue : Option String) (random : ℚ) : RoutingDecision :=
  match snapshot with
  | none => { version := .baseline, canaryWeight := 0, stageIndex := 0 }
  | some snap =>
    if snap.state ≠ .STAGE ∧ snap.state ≠ .PAUSED ∧ snap.state ≠ .PENDING then
      { version := .baseline, canaryWeight := 0, stageIndex := snap.stageIndex }
    else if snap.canaryWeight ≤ 0 then
      { version := .baseline, canaryWeight := snap.canaryWeight,
        stageIndex := snap.stageIndex }
    else
      let bucket := routerBucket stickyValue random
      { version := if bucket < snap.canaryWeight then .canary else .baseline,
        canaryWeight := snap.canaryWeight, stageIndex := snap.stageIndex }

/-! ## Statistics engine (`statistics/distributions.ts`, `statistics/welch.ts`)

Floats are modelled as real numbers; comparison-driven control flow uses
classical decidability.  The self-contained Student-t machinery is
embedded in full so that `welchTTest` is a closed definition. -/

open scoped Classical in
/-- Lanczos (g = 7) approximation, the `z ≥ 0.5` branch of `lnGamma`. -/
noncomputable def lnGammaPos (z : ℝ) : ℝ :=
  let z1 := z - 1
  let x : ℝ := 0.99999999999980993
    + 676.5203681218851 / (z1 + 1)
    + (-1259.1392167224028) / (z1 + 2)
    + 771.32342877765313 / (z1 + 3)
    + (-176.61502916214059) / (z1 + 4)
    + 12.507343278686905 / (z1 + 5)
    + (-0.13857109526572012) / (z1 + 6)
    + 9.9843695780195716e-6 / (z1 + 7)
    + 1.5056327351493116e-7 / (z1 + 8)
  let t := z1 + 7.5
  0.5 * Real.log (2 * Real.pi) + (z1 + 0.5) * Real.log t - t + Real.log x

open scoped Classical in
/-- `lnGamma` with reflection for `z < 0.5`.  The reflected argument
`1 − z` is ≥ 0.5, so the recursion bottoms out after one step. -/
noncomputable def lnGamma (z : ℝ) : ℝ :=
  if z < 0.5 then Real.log (Real.pi / Real.sin (Real.pi * z)) - lnGammaPos (1 - z)
  else lnGammaPos z

/-- Lentz continued-fraction state: running product `f`, last `c`, last
`d` (already inverted), and the early-termination flag. -/
structure CFState where
  f : ℝ
  c : ℝ
  d : ℝ
  done : Bool

open scoped Classical in
/-- One pair-step (even numerator then odd numerator) of the Lentz loop
in `regularizedIncompleteBeta`, for `m = 1, …, 250`. -/
noncomputable def cfStep (a b x : ℝ) (st : CFState) (m : Nat) : CFState :=
  if st.done then st else
    let mr : ℝ := m
    let num1 := mr * (b - mr) * x / ((a + 2 * mr - 1) * (a + 2 * mr))
    let d1 := 1 + num1 * st.d
    let d1 := if |d1| < 1e-30 then 1e-30 else d1
    let c1 := 1 + num1 / st.c
    let c1 := if |c1| < 1e-30 then 1e-30 else c1
    let d1 := 1 / d1
    let f1 := st.f * (c1 * d1)
    let num2 := -((a + mr) * (a + b + mr)) * x / ((a + 2 * mr) * (a + 2 * mr + 1))
    let d2 := 1 + num2 * d1
    let d2 := if |d2| < 1e-30 then 1e-30 else d2
    let c2 := 1 + num2 / c1
    let c2 := if |c2| < 1e-30 then 1e-30 else c2
    let d2 := 1 / d2
    let delta := c2 * d2
    { f := f1 * delta, c := c2, d := d2,
      done := if |delta - 1| < 1e-11 then true else false }

open scoped Classical in
/-- The non-swapped core of `regularizedIncompleteBeta`: prefactor times
the Lentz continued fraction (assumes `0 < x < 1`). -/
noncomputable def ribCore (x a b : ℝ) : ℝ :=
  let lnBeta := lnGamma a + lnGamma b - lnGamma (a + b)
  let front := Real.exp (a * Real.log x + b * Real.log (1 - x) - lnBeta) / a
  let d0 := 1 - (a + b) * x / (a + 1)
  let d0 := if |d0| < 1e-30 then 1e-30 else d0
  let d0 := 1 / d0
  let final := (List.range' 1 250).foldl (cfStep a b x) ⟨d0, 1, d0, false⟩
  front * final.f

open scoped Classical in
/-- `regularizedIncompleteBeta` with the symmetry swap, written with a
recursion depth of one: when the swap guard `x > (a+1)/(a+b+2)` fires,
the recursive call's argument `1 − x` cannot fire it again (the two
guards together would force `1 > 1`). -/
noncomputable def ribFuel : Nat → ℝ → ℝ → ℝ → ℝ
  | 0, _, _, _ => 0
  | n + 1, x, a, b =>
    if x ≤ 0 then 0
    else if 1 ≤ x then 1
    else if x > (a + 1) / (a + b + 2) then 1 - ribFuel n (1 - x) b a
    else ribCore x a b

noncomputable def regularizedIncompleteBeta (x a b : ℝ) : ℝ := ribFuel 2 x a b

open scoped Classical in
/-- `tDistCDF(t, df)`. -/
noncomputable def tDistCDF (t df : ℝ) : ℝ :=
  let x := df / (df + t * t)
  let p := 0.5 * regularizedIncompleteBeta x (df / 2) 0.5
  if t ≥ 0 then 1 - p else p

open scoped Classical in
/-- `tDistQuantile(p, df)`: 120 bisection steps on `[-50, 50]`. -/
noncomputable def tDistQuantile (p df : ℝ) : ℝ :=
  let final := (List.range 120).foldl
    (fun lh _ =>
      let mid := (lh.1 + lh.2) / 2
      if tDistCDF mid df < p then (mid, lh.2) else (lh.1, mid))
    ((-50 : ℝ), (50 : ℝ))
  (final.1 + final.2) / 2

structure TTestResult where
  tStatistic : ℝ
  degreesOfFreedom : ℝ
  pValueTwoSided : ℝ
  pValueOneSided : ℝ
  baselineMean : ℝ
  canaryMean : ℝ
  baselineStd : ℝ
  canaryStd : ℝ
  baselineN : Nat
  canaryN : Nat
  meanDifference : ℝ
  confidenceInterval95 : ℝ × ℝ

/-- Arithmetic mean `xs.reduce((s,v) => s+v, 0) / n`. -/
noncomputable def listMean (xs : List ℝ) : ℝ := xs.sum / xs.length

/-- Sample variance with Bessel's correction. -/
noncomputable def listVar (xs : List ℝ) : ℝ :=
  (xs.map fun v => (v - listMean xs) ^ 2).sum / ((xs.length : ℝ) - 1)

open scoped Classical in
/-- `welchTTest(baseline, canary)`; the throw on fewer than two samples
per side is an `Except.error`. -/
noncomputable def welchTTest (baseline canary : List ℝ) :
    Except String TTestResult :=
  let n1 := baseline.length
  let n2 := canary.length
  if n1 < 2 ∨ n2 < 2 then
    Except.error "Need at least 2 samples for each group"
  else
    let mean1 := listMean baseline
    let mean2 := listMean canary
    let var1 := listVar baseline
    let var2 := listVar canary
    let se := Real.sqrt (var1 / n1 + var2 / n2)
    if se = 0 then
      Except.ok
        { tStatistic := 0
          degreesOfFreedom := (n1 : ℝ) + (n2 : ℝ) - 2
          pValueTwoSided := 1
          pValueOneSided := 0.5
          baselineMean := mean1
          canaryMean := mean2
          baselineStd := Real.sqrt var1
          canaryStd := Real.sqrt var2
          baselineN := n1
          canaryN := n2
          meanDifference := mean2 - mean1
          confidenceInterval95 := (0, 0) }
    else
      let tStatistic := (mean2 - mean1) / se
      let numerator := (var1 / n1 + var2 / n2) ^ 2
      let denominator :=
        (var1 / n1) ^ 2 / ((n1 : ℝ) - 1) + (var2 / n2) ^ 2 / ((n2 : ℝ) - 1)
      let degreesOfFreedom := numerator / denominator
      let pValueTwoSided := 2 * tDistCDF (-|tStatistic|) degreesOfFreedom
      let pValueOneSided := tDistCDF tStatistic degreesOfFreedom
      let critical := tDistQuantile 0.975 degreesOfFreedom
      let delta := critical * se
      Except.ok
        { tStatistic
          degreesOfFreedom
          pValueTwoSided
          pValueOneSided
          baselineMean := mean1
          canaryMean := mean2
          baselineStd := Real.sqrt var1
          canaryStd := Real.sqrt var2
          baselineN := n1
          canaryN := n2
          meanDifference := mean2 - mean1
          confidenceInterval95 := (mean2 - mean1 - delta, mean2 - mean1 + delta) }

/-! ## Gate evaluator (`statistics/evaluate-gate.ts`) -/

inductive GateStatus where
  | passing | failing | insufficient_data
deriving DecidableEq, Repr

/-- `StatsLike`: the interface consumed by `evaluateGate`. -/
structure StatsLike where
  count : Nat
  average : ℝ
  rawSamples : List ℝ

structure GateResult where
  scorer : String
  status : GateStatus
  pValue : Option ℝ
  baselineMean : ℝ
  canaryMean : ℝ
  baselineN : Nat
  canaryN : Nat
  absoluteCheck : Bool
  comparisonCheck : Bool
  confidenceRequired : ℝ

open scoped Classical in
/-- `evaluateGate(gate, baselineStats, canaryStats, minSamples)`.  The
`welchTTest` throw in the statistical branch propagates as an error. -/
noncomputable def evaluateGate (gate : Gate) (baselineStats canaryStats : StatsLike)
    (minSamples : Nat) : Except String GateResult :=
  let baselineMean := baselineStats.average
  let canaryMean := canaryStats.average
  let baselineN := baselineStats.count
  let canaryN := canaryStats.count
  if canaryN < minSamples ∨ baselineN < 10 then
    Except.ok
      { scorer := gate.scorer, status := .insufficient_data, pValue := none
        baselineMean, canaryMean, baselineN, canaryN
        absoluteCheck := false, comparisonCheck := false
        confidenceRequired := gate.confidence }
  else
    let absoluteCheck : Bool := decide (canaryMean ≥ gate.threshold)
    if gate.comparison = .absolute_only then
      Except.ok
        { scorer := gate.scorer
          status := if absoluteCheck then .passing else .failing
          pValue := none
          baselineMean, canaryMean, baselineN, canaryN
          absoluteCheck, comparisonCheck := true
          confidenceRequired := gate.confidence }
    else
      (welchTTest baselineStats.rawSamples canaryStats.rawSamples).map fun result =>
        let pValue := result.pValueOneSided
        let comparisonCheck : Bool :=
          if gate.comparison = .not_worse_than_baseline then
            decide (pValue ≥ 1 - gate.confidence)
          else
            decide (1 - pValue ≥ gate.confidence)
        { scorer := gate.scorer
          status := if absoluteCheck && comparisonCheck then .passing else .failing
          pValue := some pValue
          baselineMean, canaryMean, baselineN, canaryN
          absoluteCheck, comparisonCheck
          confidenceRequired := gate.confidence }

open scoped Classical in
/-- The `regressing` search predicate of `evaluateRollback`:
`status === "failing" && pValue !== null && pValue < 0.01`. -/
noncomputable def regressingP (g : GateResult) : Bool :=
  g.status == GateStatus.failing &&
    match g.pValue with
    | some p => decide (p < 0.01)
    | none => false

open scoped Classical in
/-- The `absoluteDrop` search predicate of `evaluateRollback`:
`baselineMean - canaryMean > rollback.on_score_drop`. -/
noncomputable def absoluteDropP (cfg : RollbackConfig) (g : GateResult) : Bool :=
  decide (g.baselineMean - g.canaryMean > cfg.on_score_drop)

open scoped Classical in
/-- `StageController.evaluateRollback(gates, canaryErrorRate)`; the
rollback thresholds are read from the snapshot's deployment config and
passed here explicitly. -/
noncomputable def evaluateRollback (cfg : RollbackConfig) (gates : List GateResult)
    (canaryErrorRate : ℝ) : Option String :=
  match gates.find? regressingP with
  | some g => some ("score_regression:" ++ g.scorer)
  | none =>
    match gates.find? (absoluteDropP cfg) with
    | some g => some ("absolute_drop:" ++ g.scorer)
    | none =>
      if canaryErrorRate > cfg.on_error_rate then some "error_rate_exceeded"
      else none

/-! ## Score monitor (`monitor/score-monitor.ts`, `statistics/running.ts`) -/

/-- `RunningStats` (Welford moments plus retained raw samples). -/
structure RunningStats where
  n : Nat
  mean : ℝ
  m2 : ℝ
  samples : List ℝ

noncomputable def emptyRunningStats : RunningStats := ⟨0, 0, 0, []⟩

/-- `RunningStats.add`.  Below the 10,000-sample cap the value is
appended.  At capacity the source overwrites a slot chosen by
`Math.random()`; no claim below observes the retained set at capacity,
so the randomized overwrite is modelled as keeping the samples. -/
noncomputable def RunningStats.add (s : RunningStats) (value : ℝ) : RunningStats :=
  let n' := s.n + 1
  let delta := value - s.mean
  let mean' := s.mean + delta / n'
  let delta2 := value - mean'
  { n := n', mean := mean', m2 := s.m2 + delta * delta2
    samples := if s.samples.length < 10000 then s.samples ++ [value] else s.samples }

noncomputable def RunningStats.average (s : RunningStats) : ℝ := s.mean

open scoped Classical in
noncomputable def RunningStats.variance (s : RunningStats) : ℝ :=
  if s.n > 1 then s.m2 / ((s.n : ℝ) - 1) else 0

noncomputable def RunningStats.standardDeviation (s : RunningStats) : ℝ :=
  Real.sqrt s.variance

def RunningStats.count (s : RunningStats) : Nat := s.n

/-- A BTQL result row; `scores` maps a scorer name to its numeric score
(`none` for an absent, null or non-numeric entry), `created` is the
timestamp in milliseconds. -/
structure BTQLRow where
  created : Int
  error : Option String := none
  scores : String → Option ℝ

structure VersionScoreStats where
  mean : ℝ
  std : ℝ
  n : Nat

structure ScorerSummary where
  baseline : VersionScoreStats
  canary : VersionScoreStats

/-- `ScoreSnapshot`: mapping from scorer name to per-version stats. -/
def ScoreSnapshot := List (String × ScorerSummary)

structure MonitorState where
  baselineStats : String → RunningStats
  canaryStats : String → RunningStats
  baselineWatermark : Int
  canaryWatermark : Int
  canaryTotal : Nat
  canaryErrors : Nat

/-- Monitor construction / `resetForStage`: both watermarks at the stage
start, zero counters, fresh stats. -/
noncomputable def initMonitorState (stageStartTime : Int) : MonitorState :=
  { baselineStats := fun _ => emptyRunningStats
    canaryStats := fun _ => emptyRunningStats
    baselineWatermark := stageStartTime
    canaryWatermark := stageStartTime
    canaryTotal := 0
    canaryErrors := 0 }

/-- Per-row scorer update in `consumeRows`: add `row.scores[scorer]`
when it is a finite number. -/
noncomputable def consumeRowScores (scorerNames : List String)
    (stats : String → RunningStats) (row : BTQLRow) : String → RunningStats :=
  scorerNames.foldl
    (fun st scorer =>
      match row.scores scorer with
      | some v => Function.update st scorer ((st scorer).add v)
      | none => st)
    stats

/-- `row.error` truthiness: a non-null, non-empty error string counts. -/
def rowHasError (row : BTQLRow) : Bool :=
  match row.error with
  | some e => e ≠ ""
  | none => false

/-- `consumeRows` for the baseline side. -/
noncomputable def consumeBaselineRows (scorerNames : List String)
    (st : MonitorState) (rows : List BTQLRow) : MonitorState :=
  { st with baselineStats :=
      rows.foldl (consumeRowScores scorerNames) st.baselineStats }

/-- `consumeRows` for the canary side: counts totals and errors. -/
noncomputable def consumeCanaryRows (scorerNames : List String)
    (st : MonitorState) (rows : List BTQLRow) : MonitorState :=
  { st with
    canaryStats := rows.foldl (consumeRowScores scorerNames) st.canaryStats
    canaryTotal := st.canaryTotal + rows.length
    canaryErrors := st.canaryErrors + (rows.filter rowHasError).length }

/-- `maxCreatedAt(current, rows)`. -/
def maxCreatedAt (current : Int) (rows : List BTQLRow) : Int :=
  rows.foldl (fun m r => if r.created > m then r.created else m) current

/-- `buildSnapshot()` across the configured scorers. -/
noncomputable def buildSnapshot (scorerNames : List String) (st : MonitorState) :
    ScoreSnapshot :=
  scorerNames.map fun scorer =>
    (scorer,
      { baseline :=
          { mean := (st.baselineStats scorer).average
            std := (st.baselineStats scorer).standardDeviation
            n := (st.baselineStats scorer).count }
        canary :=
          { mean := (st.canaryStats scorer).average
            std := (st.canaryStats scorer).standardDeviation
            n := (st.canaryStats scorer).count } })

inductive HealthStatus where
  | healthy | degraded
deriving DecidableEq, Repr

inductive MonitorEvent where
  | scoreUpdate (snap : ScoreSnapshot)
  | monitorHealth (status : HealthStatus)
  | errorEvent (msg : String)

/-- One `poll()` tick.  The two BTQL fetch outcomes are inputs; a fetch
that ultimately fails has already marked the client diagnostics
degraded (`recordFailure`), and a fully successful tick leaves them
healthy (`recordSuccess`), so the emitted `monitor_health` status is
determined by the outcome.  The baseline rows are consumed and the
baseline watermark advanced *before* the canary fetch result is
examined, exactly as in the source. -/
noncomputable def poll (scorerNames : List String) (st : MonitorState)
    (baselineRes canaryRes : Except String (List BTQLRow)) :
    MonitorState × List MonitorEvent :=
  match baselineRes with
  | Except.error e => (st, [.errorEvent e, .monitorHealth .degraded])
  | Except.ok baselineRows =>
    let st1 := consumeBaselineRows scorerNames st baselineRows
    let st1 := { st1 with
      baselineWatermark := maxCreatedAt st.baselineWatermark baselineRows }
    match canaryRes with
    | Except.error e => (st1, [.errorEvent e, .monitorHealth .degraded])
    | Except.ok canaryRows =>
      let st2 := consumeCanaryRows scorerNames st1 canaryRows
      let st2 := { st2 with
        canaryWatermark := maxCreatedAt st1.canaryWatermark canaryRows }
      (st2, [.scoreUpdate (buildSnapshot scorerNames st2), .monitorHealth .healthy])

/-! ## Stage controller (`state/stage-controller.ts`) -/

structure StageDecision where
  promote : Bool
  rollback : Bool
  nextAction : String
  reason : Option String := none
  gateResults : List GateResult
  timeRemainingMs : Int

/-- `makeRunningStats(mean, std, n)`: synthetic raw samples alternating
`mean ± std`, with a `[mean, mean]` fallback when fewer than two. -/
noncomputable def makeRunningStats (mean std : ℝ) (n : Nat) : StatsLike :=
  let samples : List ℝ :=
    if n ≤ 1 then (if n = 1 then [mean] else [])
    else (List.range n).map fun i => if i % 2 = 0 then mean + std else mean - std
  { count := n
    average := mean
    rawSamples := if samples.length > 1 then samples else [mean, mean] }

/-- Placeholder stage for the (unreachable on controller states) reads
past the end of `config.stages`; the source would crash there. -/
def defaultStage : DeploymentStage := { weight := 0, min_samples := 0, gates := [] }

/-- `StageController.evaluateGate`: reconstructs `StatsLike` values from
the score snapshot's moments (zeros for a missing scorer) and runs the
pure gate evaluator.  `makeRunningStats` always supplies at least two
raw samples, so the `welchTTest` throw is unreachable; the error case
falls back to an insufficient-data result. -/
noncomputable def controllerGateResult (gate : Gate) (stage : DeploymentStage)
    (scores : ScoreSnapshot) : GateResult :=
  let summary := List.lookup gate.scorer scores
  let b : VersionScoreStats :=
    match summary with
    | some s => s.baseline
    | none => { mean := 0, std := 0, n := 0 }
  let c : VersionScoreStats :=
    match summary with
    | some s => s.canary
    | none => { mean := 0, std := 0, n := 0 }
  let baselineStats := makeRunningStats b.mean b.std b.n
  let canaryStats := makeRunningStats c.mean c.std c.n
  match evaluateGate gate baselineStats canaryStats stage.min_samples with
  | Except.ok r => r
  | Except.error _ =>
    { scorer := gate.scorer, status := .insufficient_data, pValue := none
      baselineMean := baselineStats.average, canaryMean := canaryStats.average
      baselineN := baselineStats.count, canaryN := canaryStats.count
      absoluteCheck := false, comparisonCheck := false
      confidenceRequired := gate.confidence }

open scoped Classical in
/-- `StageController.evaluateStage(snapshot, canaryErrorRate)` for an
active snapshot `s` at time `now`. -/
noncomputable def evaluateStage (s : DeploymentSnapshot) (scores : ScoreSnapshot)
    (canaryErrorRate : ℝ) (now : Int) : StageDecision :=
  let stage := (s.config.stages.get? s.stageIndex).getD defaultStage
  let gateResults := stage.gates.map fun gate => controllerGateResult gate stage scores
  let durationMs := stage.duration.getD 0
  let elapsed := now - s.stageEnteredAt
  let timeRemainingMs := max 0 (durationMs - elapsed)
  let durationElapsed : Bool := decide (elapsed ≥ durationMs)
  let samplesReached : Bool :=
    gateResults.all fun r => decide (r.canaryN ≥ stage.min_samples)
  let allPassing : Bool :=
    !gateResults.isEmpty && gateResults.all fun r => r.status == GateStatus.passing
  match evaluateRollback s.config.rollback gateResults canaryErrorRate with
  | some reason =>
    { promote := false, rollback := true, nextAction := "rollback"
      reason := some reason, gateResults, timeRemainingMs }
  | none =>
    let promote := allPassing && durationElapsed && samplesReached
    { promote, rollback := false
      nextAction := if promote then "auto_promote" else "hold"
      gateResults, timeRemainingMs }

/-- The controller's mutable fields plus the persisted side effects the
claims observe: the append-only score-snapshot table and the event log
(by event type). -/
structure ControllerState where
  snapshot : Option DeploymentSnapshot
  latestScores : ScoreSnapshot
  latestGates : List GateResult
  nextAction : String
  timeRemainingMs : Option Int
  storeScoreSnapshots : List (String × Nat × ScoreSnapshot)
  events : List String

noncomputable def initController : ControllerState :=
  { snapshot := none, latestScores := [], latestGates := []
    nextAction := "hold", timeRemainingMs := none
    storeScoreSnapshots := [], events := [] }

/-- The private `transition` helper: applies `transitionSnapshot` to the
current snapshot.  The boolean reports success; a thrown
`InvalidTransition` (or missing snapshot) leaves the state unchanged. -/
noncomputable def ctransition (st : ControllerState) (tgt : LifecycleState)
    (patch : SnapshotPatch) : ControllerState × Bool :=
  match st.snapshot with
  | none => (st, false)
  | some s =>
    match transitionSnapshot s tgt patch with
    | Except.ok s' => ({ st with snapshot := some s' }, true)
    | Except.error _ => (st, false)

noncomputable def emitEvent (st : ControllerState) (name : String) : ControllerState :=
  { st with events := st.events ++ [name] }

/-- `startDeployment(config)`: create the PENDING snapshot, emit
`deployment_started`, transition to STAGE.  An empty stage list crashes
on `stages[0]!` before any mutation. -/
noncomputable def startDeployment (st : ControllerState) (cfg : DeploymentConfig)
    (deploymentId : String) (now : Int) : ControllerState :=
  match cfg.stages with
  | [] => st
  | firstStage :: _ =>
    let pending : DeploymentSnapshot :=
      { id := deploymentId, name := cfg.name, config := cfg
        state := .PENDING, stageIndex := 0
        stageEnteredAt := now, startedAt := now
        canaryWeight := firstStage.weight }
    let st1 := emitEvent { st with snapshot := some pending } "deployment_started"
    (ctransition st1 .STAGE
      { canaryWeight := some firstStage.weight, stageEnteredAt := some now }).1

/-- `advanceStage(reason)`. -/
noncomputable def advanceStage (st : ControllerState) (now : Int) : ControllerState :=
  match st.snapshot with
  | none => st
  | some s =>
    let stages := s.config.stages
    let nextIndex := s.stageIndex + 1
    if nextIndex ≥ stages.length then
      let res := ctransition st .PROMOTED
        { canaryWeight := some 100, finalState := some (some .PROMOTED)
          completedAt := some (some now) }
      if res.2 then emitEvent res.1 "deployment_complete" else res.1
    else
      let next := (stages.get? nextIndex).getD defaultStage
      let res := ctransition st .STAGE
        { stageIndex := some nextIndex, stageEnteredAt := some now
          canaryWeight := some next.weight }
      if res.2 then emitEvent res.1 "stage_change" else res.1

/-- The first half of `rollback(reason)`: enter ROLLING_BACK with the
canary weight cut to zero.  This is the controller's observable state if
the second transition cannot complete. -/
noncomputable def rollbackBegin (st : ControllerState) (reason : String) :
    ControllerState × Bool :=
  match st.snapshot with
  | none => (st, false)
  | some s =>
    if s.state = .ROLLED_BACK ∨ s.state = .PROMOTED ∨ s.state = .IDLE then (st, false)
    else
      ctransition st .ROLLING_BACK
        { canaryWeight := some 0, reason := some (some reason) }

/-- `rollback(reason)`: ROLLING_BACK then ROLLED_BACK, then the
`rollback_triggered` and `deployment_complete` events. -/
noncomputable def rollbackOp (st : ControllerState) (reason : String) (now : Int) :
    ControllerState :=
  let r1 := rollbackBegin st reason
  if r1.2 then
    let r2 := ctransition r1.1 .ROLLED_BACK
      { finalState := some (some .ROLLED_BACK), completedAt := some (some now)
        canaryWeight := some 0, reason := some (some reason) }
    if r2.2 then emitEvent (emitEvent r2.1 "rollback_triggered") "deployment_complete"
    else r2.1
  else r1.1

/-- `pause()`. -/
noncomputable def pauseOp (st : ControllerState) : ControllerState :=
  match st.snapshot with
  | none => st
  | some s =>
    if s.state ≠ .STAGE then st
    else
      let res := ctransition st .PAUSED
        { pausedStageIndex := some (some s.stageIndex) }
      if res.2 then emitEvent res.1 "paused" else res.1

/-- `resume()`: back to STAGE at the paused index with a fresh
`stageEnteredAt` and the stage's weight; reading the stage weight
(`stages[stageIndex]!.weight`) crashes before the transition if the
index is out of range. -/
noncomputable def resumeOp (st : ControllerState) (now : Int) : ControllerState :=
  match st.snapshot with
  | none => st
  | some s =>
    if s.state ≠ .PAUSED then st
    else
      let stageIndex := s.pausedStageIndex.getD s.stageIndex
      if stageIndex ≥ s.config.stages.length then st
      else
        let w := ((s.config.stages.get? stageIndex).getD defaultStage).weight
        let res := ctransition st .STAGE
          { stageIndex := some stageIndex, stageEnteredAt := some now
            pausedStageIndex := some none, canaryWeight := some w }
        if res.2 then emitEvent res.1 "resumed" else res.1

/-- `promote(force)`; the canary error rate is the monitor reading. -/
noncomputable def promoteOp (st : ControllerState) (force : Bool)
    (canaryErrorRate : ℝ) (now : Int) : ControllerState :=
  match st.snapshot with
  | none => st
  | some s =>
    if s.state ≠ .STAGE ∧ s.state ≠ .PAUSED then st
    else if !force ∧ s.state = .STAGE then
      let decision := evaluateStage s st.latestScores canaryErrorRate now
      if decision.promote then advanceStage st now else st
    else advanceStage st now

/-- `onScoreUpdate(snapshot)`: record `latestScores`; when the
deployment is in STAGE, persist the score snapshot, evaluate the stage
and act on the decision. -/
noncomputable def onScoreUpdate (st : ControllerState) (sc : ScoreSnapshot)
    (canaryErrorRate : ℝ) (now : Int) : ControllerState :=
  let st0 := { st with latestScores := sc }
  match st0.snapshot with
  | none => st0
  | some s =>
    if s.state ≠ .STAGE then st0
    else
      let st1 := emitEvent
        { st0 with storeScoreSnapshots :=
            st0.storeScoreSnapshots ++ [(s.id, s.stageIndex, sc)] }
        "score_update"
      let decision := evaluateStage s sc canaryErrorRate now
      let st2 := emitEvent
        { st1 with
          latestGates := decision.gateResults
          nextAction := decision.nextAction
          timeRemainingMs := some decision.timeRemainingMs }
        "gate_status"
      if decision.rollback then
        rollbackOp st2 (decision.reason.getD "rollback_triggered") now
      else if decision.promote then advanceStage st2 now
      else st2

/-- Controller states reachable through the public operations from a
fresh controller. `rollbackStep` exposes the in-flight ROLLING_BACK
point between the two rollback transitions. -/
inductive Reach : ControllerState → Prop where
  | init : Reach initController
  | start (st : ControllerState) (cfg : DeploymentConfig) (id : String) (now : Int) :
      Reach st → Reach (startDeployment st cfg id now)
  | scoreUpdate (st : ControllerState) (sc : ScoreSnapshot) (err : ℝ) (now : Int) :
      Reach st → Reach (onScoreUpdate st sc err now)
  | pause (st : ControllerState) : Reach st → Reach (pauseOp st)
  | resume (st : ControllerState) (now : Int) : Reach st → Reach (resumeOp st now)
  | promote (st : ControllerState) (force : Bool) (err : ℝ) (now : Int) :
      Reach st → Reach (promoteOp st force err now)
  | rollback (st : ControllerState) (reason : String) (now : Int) :
      Reach st → Reach (rollbackOp st reason now)
  | rollbackStep (st : ControllerState) (reason : String) :
      Reach st → Reach (rollbackBegin st reason).1

/-- The weight/state invariant claimed by the spec, plus the auxiliary
facts needed to push it through the induction. -/
def SnapInv (s : DeploymentSnapshot) : Prop :=
  (s.state = .STAGE ∨ s.state = .PAUSED →
    ∃ stage, s.config.stages.get? s.stageIndex = some stage ∧
      s.canaryWeight = stage.weight) ∧
  (s.state = .ROLLING_BACK ∨ s.state = .ROLLED_BACK → s.canaryWeight = 0) ∧
  (s.state = .PROMOTED → s.canaryWeight = 100) ∧
  (s.state = .PAUSED → s.pausedStageIndex = some s.stageIndex) ∧
  s.state ≠ .IDLE ∧ s.state ≠ .PENDING

/-- Every reachable controller state has an invariant snapshot. -/
def CInv (st : ControllerState) : Prop :=
  ∀ s, st.snapshot = some s → SnapInv s

/-! ## Spec-side definitions and concrete example inputs -/

/-- The allowed-transition table exactly as listed by the spec. -/
def allowedPairs : List (LifecycleState × LifecycleState) :=
  [(.IDLE, .PENDING),
   (.PENDING, .STAGE), (.PENDING, .ROLLING_BACK),
   (.STAGE, .STAGE), (.STAGE, .PAUSED), (.STAGE, .ROLLING_BACK), (.STAGE, .PROMOTED),
   (.PAUSED, .STAGE), (.PAUSED, .ROLLING_BACK),
   (.ROLLING_BACK, .ROLLED_BACK)]

/-- The one-sided Welch p-value on two raw-sample arrays, when defined. -/
noncomputable def welchPOneSided (b c : List ℝ) : Option ℝ :=
  ((welchTTest b c).map TTestResult.pValueOneSided).toOption

/-- The comparison check as worded by the spec: trivially true for
`absolute_only`; `pValue ≥ 1 − confidence` for `not_worse_than_baseline`;
`(1 − pValue) ≥ confidence` for `better_than_baseline`, with `pValue`
the one-sided Welch p-value on the raw-sample arrays. -/
def specComparisonCheck (g : Gate) (bs cs : StatsLike) : Prop :=
  match g.comparison with
  | .absolute_only => True
  | .not_worse_than_baseline =>
    ∀ p, welchPOneSided bs.rawSamples cs.rawSamples = some p → p ≥ 1 - g.confidence
  | .better_than_baseline =>
    ∀ p, welchPOneSided bs.rawSamples cs.rawSamples = some p → 1 - p ≥ g.confidence

/-- A two-stage example configuration (5% then 100%, no gates). -/
def exCfg : DeploymentConfig :=
  { name := "demo"
    stages := [{ weight := 5, min_samples := 2, gates := [] },
               { weight := 100, min_samples := 2, gates := [] }]
    rollback := { on_score_drop := 0.1, on_error_rate := 0.05 } }

/-- An example snapshot sitting in the first stage. -/
def exSnapStage : DeploymentSnapshot :=
  { id := "d1", name := "demo", config := exCfg, state := .STAGE
    stageIndex := 0, stageEnteredAt := 0, startedAt := 0, canaryWeight := 5 }

/-- The same deployment paused at the first stage. -/
def exSnapPaused : DeploymentSnapshot :=
  { exSnapStage with state := .PAUSED, pausedStageIndex := some 0 }

/-- A controller holding the paused snapshot. -/
noncomputable def exCtrlPaused : ControllerState :=
  { initController with snapshot := some exSnapPaused }

/-- A controller holding the STAGE snapshot. -/
noncomputable def exCtrlStage : ControllerState :=
  { initController with snapshot := some exSnapStage }

/-- An example score snapshot for one scorer. -/
noncomputable def exScores : ScoreSnapshot :=
  [("Q", { baseline := { mean := 0.9, std := 0.01, n := 20 }
           canary := { mean := 0.9, std := 0.01, n := 20 } })]

/-- A BTQL row created at t = 5 with no error and no scores. -/
def exRow : BTQLRow := { created := 5, scores := fun _ => none }

/-- The snapshot produced by starting a deployment of `exCfg`. -/
def exSnapStarted : DeploymentSnapshot :=
  { id := "d1", name := "demo", config := exCfg, state := .STAGE
    stageIndex := 0, stageEnteredAt := 0, startedAt := 0, canaryWeight := 5 }

/-- An absolute-only example gate. -/
def exGate : Gate :=
  { scorer := "Q", threshold := 0.5, comparison := .absolute_only, confidence := 0.95 }

/-- Example stats: 20 observations at 0.9 with two raw samples. -/
def exStats : StatsLike :=
  { count := 20, average := 0.9, rawSamples := [0.9, 0.9] }

/-! # Theorems -/

deriving instance DecidableEq for Except

/-- Claim C4: a lifecycle transition succeeds exactly for the pairs of
the allowed table — in particular PENDING → ROLLING_BACK — and every
other pair fails with the InvalidTransition error. -/
theorem assertTransitionAllowed_iff_table :
    (∀ f t, assertTransitionAllowed f t = Except.ok () ↔ (f, t) ∈ allowedPairs) ∧
    (∀ f t, (f, t) ∉ allowedPairs →
      assertTransitionAllowed f t = Except.error "Invalid transition") ∧
    assertTransitionAllowed .PENDING .ROLLING_BACK = Except.ok () := by
  decide

/-- Claim C4 witness: a concrete pair outside the table fails. -/
theorem assertTransitionAllowed_iff_table_witness :
    ((LifecycleState.IDLE, LifecycleState.STAGE) ∉ allowedPairs) ∧
      assertTransitionAllowed .IDLE .STAGE = Except.error "Invalid transition" :=
  ⟨by decide, assertTransitionAllowed_iff_table.2.1 .IDLE .STAGE (by decide)⟩

/-- Claim C10 counterexample: `Partial<DeploymentSnapshot>` includes
`state`, and the spread `{ ...snapshot, state: to, ...patch }` lets the
patch override the target state: transitioning `exSnapStage` to PAUSED
with the patch `{ state: PROMOTED }` yields a snapshot whose state is
PROMOTED, not the target PAUSED. -/
theorem transitionSnapshot_patch_overrides_state :
    (transitionSnapshot exSnapStage .PAUSED
        { state := some .PROMOTED }).map DeploymentSnapshot.state =
      Except.ok LifecycleState.PROMOTED ∧
    LifecycleState.PROMOTED ≠ LifecycleState.PAUSED := by
  exact ⟨rfl, by decide⟩

/-- Claim C10 (amended): for an allowed target state and a patch that
does not name `state`, the result's state is the target; every patched
field takes the patch value and every unpatched field is carried over
unchanged from the input snapshot (which, being a value, is never
mutated). -/
theorem transitionSnapshot_frame (s : DeploymentSnapshot) (tgt : LifecycleState)
    (p : SnapshotPatch) (hall : transitionAllowed s.state tgt = true) :
    ∃ s', transitionSnapshot s tgt p = Except.ok s' ∧
      s'.state = p.state.getD tgt ∧
      (p.state = none → s'.state = tgt) ∧
      s'.id = p.id.getD s.id ∧
      s'.name = p.name.getD s.name ∧
      s'.config = p.config.getD s.config ∧
      s'.stageIndex = p.stageIndex.getD s.stageIndex ∧
      s'.stageEnteredAt = p.stageEnteredAt.getD s.stageEnteredAt ∧
      s'.startedAt = p.startedAt.getD s.startedAt ∧
      s'.completedAt = p.completedAt.getD s.completedAt ∧
      s'.finalState = p.finalState.getD s.finalState ∧
      s'.pausedStageIndex = p.pausedStageIndex.getD s.pausedStageIndex ∧
      s'.canaryWeight = p.canaryWeight.getD s.canaryWeight ∧
      s'.reason = p.reason.getD s.reason := by
  refine ⟨applyPatch s tgt p, ?_, rfl, ?_, rfl, rfl, rfl, rfl, rfl, rfl, rfl, rfl,
    rfl, rfl, rfl⟩
  · simp [transitionSnapshot, assertTransitionAllowed, hall, Except.map]
  · intro h
    simp [applyPatch, h]

/-- Claim C10 witness: the frame theorem applied to the example snapshot
with a patch naming only `canaryWeight`. -/
theorem transitionSnapshot_frame_witness :
    transitionAllowed exSnapStage.state .PAUSED = true ∧
      ∃ s', transitionSnapshot exSnapStage .PAUSED
          { canaryWeight := some 7 } = Except.ok s' ∧
        s'.state = (SnapshotPatch.state { canaryWeight := some 7 }).getD .PAUSED ∧
        ((SnapshotPatch.state { canaryWeight := some 7 }) = none →
          s'.state = .PAUSED) ∧
        s'.id = (SnapshotPatch.id { canaryWeight := some 7 }).getD exSnapStage.id ∧
        s'.name = (SnapshotPatch.name { canaryWeight := some 7 }).getD
          exSnapStage.name ∧
        s'.config = (SnapshotPatch.config { canaryWeight := some 7 }).getD
          exSnapStage.config ∧
        s'.stageIndex = (SnapshotPatch.stageIndex { canaryWeight := some 7 }).getD
          exSnapStage.stageIndex ∧
        s'.stageEnteredAt =
          (SnapshotPatch.stageEnteredAt { canaryWeight := some 7 }).getD
            exSnapStage.stageEnteredAt ∧
        s'.startedAt = (SnapshotPatch.startedAt { canaryWeight := some 7 }).getD
          exSnapStage.startedAt ∧
        s'.completedAt = (SnapshotPatch.completedAt { canaryWeight := some 7 }).getD
          exSnapStage.completedAt ∧
        s'.finalState = (SnapshotPatch.finalState { canaryWeight := some 7 }).getD
          exSnapStage.finalState ∧
        s'.pausedStageIndex =
          (SnapshotPatch.pausedStageIndex { canaryWeight := some 7 }).getD
            exSnapStage.pausedStageIndex ∧
        s'.canaryWeight = (SnapshotPatch.canaryWeight { canaryWeight := some 7 }).getD
          exSnapStage.canaryWeight ∧
        s'.reason = (SnapshotPatch.reason { canaryWeight := some 7 }).getD
          exSnapStage.reason :=
  ⟨by decide, transitionSnapshot_frame exSnapStage .PAUSED
    { canaryWeight := some 7 } (by decide)⟩

/-- `Rat.floor` agrees with the `⌊·⌋` of the floor-ring structure. -/
theorem ratFloor_eq_intFloor (q : ℚ) : q.floor = ⌊q⌋ :=
  (Rat.floor_def' q).trans Rat.floor_def.symm

/-- Claim C5 counterexample: with a present-but-empty sticky value the
source's truthiness guard `if (stickyValue)` ignores it, so the decision
follows the random draw — two different draws flip the decision for the
same snapshot and the same (present) sticky value, contradicting the
claimed sticky-hash bucketing and its determinism consequence. -/
theorem chooseVersion_empty_sticky_uses_random :
    (chooseVersion (some exSnapStage) (some "") 0).version = Version.canary ∧
    (chooseVersion (some exSnapStage) (some "") (99 / 100)).version =
      Version.baseline := by
  refine ⟨?_, ?_⟩
  · have hb : routerBucket (some "") 0 = 0 := by
      simp [routerBucket, ratFloor_eq_intFloor]
    simp [chooseVersion, exSnapStage, hb]
  · have hb : routerBucket (some "") (99 / 100) = 99 := by
      rw [routerBucket]
      norm_num [ratFloor_eq_intFloor]
    simp [chooseVersion, exSnapStage, hb]

/-- Claim C5 (amended): the router returns baseline with weight 0 for a
null snapshot or an inactive state; baseline when the canary weight is
non-positive; otherwise canary exactly when `bucket < canaryWeight`,
where the bucket is `stableHash(sticky) mod 100` for a *non-empty*
sticky value (an empty sticky value is falsy and falls through to the
random path) and `⌊random·100⌋` otherwise — so the decision is
deterministic for a fixed snapshot and non-empty sticky key. -/
theorem chooseVersion_characterization (s : DeploymentSnapshot)
    (sticky : Option String) (r : ℚ) :
    chooseVersion none sticky r =
      { version := .baseline, canaryWeight := 0, stageIndex := 0 } ∧
    ((s.state ≠ .STAGE ∧ s.state ≠ .PAUSED ∧ s.state ≠ .PENDING) →
      chooseVersion (some s) sticky r =
        { version := .baseline, canaryWeight := 0, stageIndex := s.stageIndex }) ∧
    (¬(s.state ≠ .STAGE ∧ s.state ≠ .PAUSED ∧ s.state ≠ .PENDING) →
      s.canaryWeight ≤ 0 →
      chooseVersion (some s) sticky r =
        { version := .baseline, canaryWeight := s.canaryWeight,
          stageIndex := s.stageIndex }) ∧
    (¬(s.state ≠ .STAGE ∧ s.state ≠ .PAUSED ∧ s.state ≠ .PENDING) →
      0 < s.canaryWeight →
      chooseVersion (some s) sticky r =
        { version := if routerBucket sticky r < s.canaryWeight then .canary
            else .baseline,
          canaryWeight := s.canaryWeight, stageIndex := s.stageIndex }) ∧
    (∀ sv, sv ≠ "" → routerBucket (some sv) r = (stableHash sv % 100 : Nat)) ∧
    routerBucket none r = ⌊r * 100⌋ ∧
    routerBucket (some "") r = ⌊r * 100⌋ := by
  have hfl : (r * 100).floor = ⌊r * 100⌋ :=
    (Rat.floor_def' (r * 100)).trans Rat.floor_def.symm
  refine ⟨rfl, ?_, ?_, ?_, ?_, hfl, hfl⟩
  · intro h
    simp [chooseVersion, h]
  · intro h hw
    rw [chooseVersion, if_neg h, if_pos hw]
  · intro h hw
    rw [chooseVersion, if_neg h, if_neg (by omega)]
  · intro sv hsv
    simp [routerBucket, hsv]

/-- Claim C5 witness: the characterization applied to the example
STAGE snapshot with a non-empty sticky key. -/
theorem chooseVersion_characterization_witness :
    (¬(exSnapStage.state ≠ .STAGE ∧ exSnapStage.state ≠ .PAUSED ∧
        exSnapStage.state ≠ .PENDING)) ∧
    (0 : Int) < exSnapStage.canaryWeight ∧
    chooseVersion (some exSnapStage) (some "u1") 0 =
      { version := if routerBucket (some "u1") 0 < exSnapStage.canaryWeight
          then .canary else .baseline,
        canaryWeight := exSnapStage.canaryWeight,
        stageIndex := exSnapStage.stageIndex } :=
  ⟨by decide, by decide,
    (chooseVersion_characterization exSnapStage (some "u1") 0).2.2.2.1
      (by decide) (by decide)⟩

/-- Claim C8: when both samples have size at least 2 and the pooled
standard error `√(s₁²/n₁ + s₂²/n₂)` is 0, `welchTTest` returns the fixed
degenerate result `t = 0`, two-sided p-value 1, one-sided p-value 0.5,
confidence interval (0, 0), with the true arithmetic means of the
inputs (the embedding has no partial division, so no division by zero
can occur; in the source this branch returns before any division by
`se`). -/
theorem welchTTest_degenerate (b c : List ℝ)
    (hb : 2 ≤ b.length) (hc : 2 ≤ c.length)
    (hse : Real.sqrt (listVar b / b.length + listVar c / c.length) = 0) :
    ∃ r, welchTTest b c = Except.ok r ∧
      r.tStatistic = 0 ∧
      r.pValueTwoSided = 1 ∧
      r.pValueOneSided = 0.5 ∧
      r.confidenceInterval95 = (0, 0) ∧
      r.baselineMean = b.sum / b.length ∧
      r.canaryMean = c.sum / c.length ∧
      r.degreesOfFreedom = (b.length : ℝ) + (c.length : ℝ) - 2 ∧
      r.baselineN = b.length ∧
      r.canaryN = c.length := by
  refine ⟨{ tStatistic := 0
            degreesOfFreedom := (b.length : ℝ) + (c.length : ℝ) - 2
            pValueTwoSided := 1
            pValueOneSided := 0.5
            baselineMean := listMean b
            canaryMean := listMean c
            baselineStd := Real.sqrt (listVar b)
            canaryStd := Real.sqrt (listVar c)
            baselineN := b.length
            canaryN := c.length
            meanDifference := listMean c - listMean b
            confidenceInterval95 := (0, 0) },
    ?_, rfl, rfl, rfl, rfl, rfl, rfl, rfl, rfl, rfl⟩
  unfold welchTTest
  rw [if_neg (by omega)]
  rw [if_pos hse]

/-- Claim C8 witness: two identical constant samples. -/
theorem welchTTest_degenerate_witness :
    (2 ≤ ([1, 1] : List ℝ).length) ∧
    Real.sqrt (listVar [1, 1] / ([1, 1] : List ℝ).length +
      listVar [1, 1] / ([1, 1] : List ℝ).length) = 0 ∧
    ∃ r, welchTTest [1, 1] [1, 1] = Except.ok r ∧
      r.tStatistic = 0 ∧
      r.pValueTwoSided = 1 ∧
      r.pValueOneSided = 0.5 ∧
      r.confidenceInterval95 = (0, 0) ∧
      r.baselineMean = ([1, 1] : List ℝ).sum / ([1, 1] : List ℝ).length ∧
      r.canaryMean = ([1, 1] : List ℝ).sum / ([1, 1] : List ℝ).length ∧
      r.degreesOfFreedom =
        (([1, 1] : List ℝ).length : ℝ) + (([1, 1] : List ℝ).length : ℝ) - 2 ∧
      r.baselineN = ([1, 1] : List ℝ).length ∧
      r.canaryN = ([1, 1] : List ℝ).length := by
  have hvar : listVar ([1, 1] : List ℝ) = 0 := by
    norm_num [listVar, listMean]
  have hse : Real.sqrt (listVar [1, 1] / ([1, 1] : List ℝ).length +
      listVar [1, 1] / ([1, 1] : List ℝ).length) = 0 := by
    rw [hvar]
    norm_num
  exact ⟨by norm_num, hse,
    welchTTest_degenerate [1, 1] [1, 1] (by norm_num) (by norm_num) hse⟩

/-- `welchTTest` succeeds whenever both sides supply at least two raw
samples. -/
theorem welchTTest_ok (b c : List ℝ) (hb : 2 ≤ b.length) (hc : 2 ≤ c.length) :
    ∃ res, welchTTest b c = Except.ok res := by
  unfold welchTTest
  rw [if_neg (by omega)]
  by_cases h : Real.sqrt (listVar b / b.length + listVar c / c.length) = 0
  · rw [if_pos h]
    exact ⟨_, rfl⟩
  · rw [if_neg h]
    exact ⟨_, rfl⟩

/-- Claim C9: with a canary count below `min_samples` or a baseline
count below 10, `evaluateGate` returns `insufficient_data` with null
p-value and both checks false; with sufficient counts any returned
result has status passing or failing, never `insufficient_data`. -/
theorem evaluateGate_insufficient (g : Gate) (bs cs : StatsLike) (m : Nat) :
    (cs.count < m ∨ bs.count < 10 →
      evaluateGate g bs cs m = Except.ok
        { scorer := g.scorer, status := .insufficient_data, pValue := none
          baselineMean := bs.average, canaryMean := cs.average
          baselineN := bs.count, canaryN := cs.count
          absoluteCheck := false, comparisonCheck := false
          confidenceRequired := g.confidence }) ∧
    (m ≤ cs.count → 10 ≤ bs.count →
      ∀ r, evaluateGate g bs cs m = Except.ok r →
        r.status = .passing ∨ r.status = .failing) := by
  constructor
  · intro h
    unfold evaluateGate
    rw [if_pos h]
  · intro h1 h2 r hr
    unfold evaluateGate at hr
    rw [if_neg (by omega)] at hr
    by_cases hcomp : g.comparison = .absolute_only
    · rw [if_pos hcomp] at hr
      simp only [Except.ok.injEq] at hr
      subst hr
      dsimp only
      split <;> simp
    · rw [if_neg hcomp] at hr
      cases hw : welchTTest bs.rawSamples cs.rawSamples with
      | error e =>
        rw [hw] at hr
        simp [Except.map] at hr
      | ok res =>
        rw [hw] at hr
        simp only [Except.map, Except.ok.injEq] at hr
        subst hr
        dsimp only
        split <;> simp <;> exact fun _ => le_or_lt _ _

/-- Claim C9 witness: a gate one sample short of `min_samples = 30`. -/
theorem evaluateGate_insufficient_witness :
    (exStats.count < 30 ∨ exStats.count < 10) ∧
    evaluateGate exGate exStats exStats 30 = Except.ok
      { scorer := exGate.scorer, status := .insufficient_data, pValue := none
        baselineMean := exStats.average, canaryMean := exStats.average
        baselineN := exStats.count, canaryN := exStats.count
        absoluteCheck := false, comparisonCheck := false
        confidenceRequired := exGate.confidence } :=
  ⟨Or.inl (by decide),
    (evaluateGate_insufficient exGate exStats exStats 30).1 (Or.inl (by decide))⟩

/-- Claim C1: with sufficient counts (and at least two raw samples per
side — every in-repo `StatsLike` with such counts supplies them, and
`welchTTest` would throw otherwise), `evaluateGate` returns passing iff
the absolute check `canaryMean ≥ threshold` and the comparison check
both hold, where the comparison check is trivially true with null
p-value for `absolute_only`, `pValue ≥ 1 − confidence` for
`not_worse_than_baseline` and `(1 − pValue) ≥ confidence` for
`better_than_baseline`, with the p-value the one-sided Welch p-value on
the two raw-sample arrays; otherwise the status is failing. -/
theorem evaluateGate_passing_iff (g : Gate) (bs cs : StatsLike) (m : Nat)
    (hcn : m ≤ cs.count) (hbn : 10 ≤ bs.count)
    (hbl : 2 ≤ bs.rawSamples.length) (hcl : 2 ≤ cs.rawSamples.length) :
    ∃ r, evaluateGate g bs cs m = Except.ok r ∧
      (r.status = .passing ↔
        cs.average ≥ g.threshold ∧ specComparisonCheck g bs cs) ∧
      (r.status = .passing ∨ r.status = .failing) ∧
      (g.comparison = .absolute_only → r.pValue = none) ∧
      (g.comparison ≠ .absolute_only →
        r.pValue = welchPOneSided bs.rawSamples cs.rawSamples) := by
  obtain ⟨res, hres⟩ := welchTTest_ok _ _ hbl hcl
  have hwp : welchPOneSided bs.rawSamples cs.rawSamples =
      some res.pValueOneSided := by
    simp [welchPOneSided, hres, Except.map, Except.toOption]
  unfold evaluateGate
  rw [if_neg (by omega)]
  by_cases hcomp : g.comparison = .absolute_only
  · rw [if_pos hcomp]
    have hspec : specComparisonCheck g bs cs := by
      simp [specComparisonCheck, hcomp]
    refine ⟨_, rfl, ?_, ?_, fun _ => rfl, fun h => absurd hcomp h⟩
    · dsimp only
      by_cases habs : cs.average ≥ g.threshold
      · simp [habs, hspec]
      · simp [habs]
    · dsimp only
      split <;> simp
  · rw [if_neg hcomp, hres]
    simp only [Except.map]
    refine ⟨_, rfl, ?_, ?_, fun h => absurd h hcomp, fun _ => ?_⟩
    · have hspec : specComparisonCheck g bs cs ↔
          (if g.comparison = .not_worse_than_baseline then
            res.pValueOneSided ≥ 1 - g.confidence
          else 1 - res.pValueOneSided ≥ g.confidence) := by
        rcases hc3 : g.comparison with _ | _ | _
        · simp [specComparisonCheck, hc3, hwp]
        · simp [specComparisonCheck, hc3, hwp]
        · exact absurd hc3 hcomp
      rw [hspec]
      dsimp only
      by_cases hnw : g.comparison = .not_worse_than_baseline
      · by_cases habs : cs.average ≥ g.threshold <;>
          by_cases hp : res.pValueOneSided ≥ 1 - g.confidence <;>
            simp [hnw, habs, hp]
      · by_cases habs : cs.average ≥ g.threshold <;>
          by_cases hp : 1 - res.pValueOneSided ≥ g.confidence <;>
            simp [hnw, habs, hp]
    · dsimp only
      split <;> simp <;> exact fun _ => le_or_lt _ _
    · dsimp only
      rw [hwp]

/-- Claim C1 witness: the characterization at the example
absolute-only gate and example stats. -/
theorem evaluateGate_passing_iff_witness :
    (2 ≤ exStats.count ∧ 10 ≤ exStats.count ∧
      2 ≤ exStats.rawSamples.length) ∧
    ∃ r, evaluateGate exGate exStats exStats 2 = Except.ok r ∧
      (r.status = .passing ↔
        exStats.average ≥ exGate.threshold ∧
          specComparisonCheck exGate exStats exStats) ∧
      (r.status = .passing ∨ r.status = .failing) ∧
      (exGate.comparison = .absolute_only → r.pValue = none) ∧
      (exGate.comparison ≠ .absolute_only →
        r.pValue = welchPOneSided exStats.rawSamples exStats.rawSamples) :=
  ⟨⟨by decide, by decide, by decide⟩,
    evaluateGate_passing_iff exGate exStats exStats 2
      (by decide) (by decide) (by decide) (by decide)⟩

/-- Claim C2: `evaluateRollback` returns, in priority order,
`score_regression:<scorer>` for the first gate that is failing with a
non-null p-value below 0.01; else `absolute_drop:<scorer>` for the
first gate whose baseline mean exceeds its canary mean by more than
`rollback.on_score_drop`; else `error_rate_exceeded` when the canary
error rate exceeds `rollback.on_error_rate`; else no rollback.  The
final two conjuncts tie the search predicates to those conditions. -/
theorem evaluateRollback_priority (cfg : RollbackConfig) (gates : List GateResult)
    (err : ℝ) :
    (∀ g, gates.find? regressingP = some g →
      evaluateRollback cfg gates err = some ("score_regression:" ++ g.scorer)) ∧
    (gates.find? regressingP = none →
      (∀ g, gates.find? (absoluteDropP cfg) = some g →
        evaluateRollback cfg gates err = some ("absolute_drop:" ++ g.scorer)) ∧
      (gates.find? (absoluteDropP cfg) = none →
        (err > cfg.on_error_rate →
          evaluateRollback cfg gates err = some "error_rate_exceeded") ∧
        (¬err > cfg.on_error_rate → evaluateRollback cfg gates err = none))) ∧
    (∀ g, regressingP g = true ↔
      g.status = .failing ∧ ∃ p, g.pValue = some p ∧ p < 0.01) ∧
    (∀ g, absoluteDropP cfg g = true ↔
      g.baselineMean - g.canaryMean > cfg.on_score_drop) := by
  refine ⟨?_, ?_, ?_, ?_⟩
  · intro g hg
    unfold evaluateRollback
    rw [hg]
  · intro hn
    refine ⟨?_, ?_⟩
    · intro g hg
      unfold evaluateRollback
      rw [hn, hg]
    · intro hn2
      refine ⟨?_, ?_⟩
      · intro he
        unfold evaluateRollback
        rw [hn, hn2, if_pos he]
      · intro he
        unfold evaluateRollback
        rw [hn, hn2, if_neg he]
  · intro g
    unfold regressingP
    cases hp : g.pValue with
    | none => simp [hp]
    | some p => simp [hp, beq_iff_eq, and_comm]
  · intro g
    unfold absoluteDropP
    simp

/-- Claim C2 witness: with no gates, only the error-rate branch can
fire, and it does at an error rate above the threshold. -/
theorem evaluateRollback_priority_witness :
    ([] : List GateResult).find? regressingP = none ∧
    ([] : List GateResult).find?
      (absoluteDropP { on_score_drop := 0.1, on_error_rate := 0.05 }) = none ∧
    ((0.1 : ℝ) > (0.05 : ℝ)) ∧
    evaluateRollback { on_score_drop := 0.1, on_error_rate := 0.05 } [] 0.1 =
      some "error_rate_exceeded" :=
  ⟨rfl, rfl, by norm_num,
    (((evaluateRollback_priority
        { on_score_drop := 0.1, on_error_rate := 0.05 } [] 0.1).2.1
      rfl).2 rfl).1 (by norm_num)⟩

/-- Claim C6 counterexample: when the baseline fetch succeeds with a row
newer than the watermark and the canary fetch then fails, the tick has a
failing fetch yet the baseline watermark has already advanced (from 0 to
5), contradicting "both watermarks equal their values from before the
tick"; the error and degraded-health events are emitted and no
score_update is. -/
theorem poll_canary_failure_advances_baseline_watermark :
    (poll ["Q"] (initMonitorState 0) (Except.ok [exRow])
        (Except.error "boom")).1.baselineWatermark = 5 ∧
    (initMonitorState 0).baselineWatermark = 0 ∧
    (poll ["Q"] (initMonitorState 0) (Except.ok [exRow])
        (Except.error "boom")).2 =
      [MonitorEvent.errorEvent "boom", MonitorEvent.monitorHealth .degraded] :=
  ⟨rfl, rfl, rfl⟩

/-- Claim C6 (amended): on a tick whose baseline fetch fails, nothing
changes and the monitor emits an error and a degraded monitor_health; on
a tick whose canary fetch fails after a successful baseline fetch, the
same two events are emitted and no score_update, the canary watermark
and canary counters are unchanged, but the baseline rows have already
been consumed and the baseline watermark advanced to the maximum created
timestamp observed; a score_update is emitted only on a fully
successful tick. -/
theorem poll_failure_behaviour (scorers : List String) (st : MonitorState)
    (bRes cRes : Except String (List BTQLRow)) :
    (∀ e, bRes = Except.error e →
      poll scorers st bRes cRes =
        (st, [MonitorEvent.errorEvent e, MonitorEvent.monitorHealth .degraded])) ∧
    (∀ rows e, bRes = Except.ok rows → cRes = Except.error e →
      (poll scorers st bRes cRes).2 =
        [MonitorEvent.errorEvent e, MonitorEvent.monitorHealth .degraded] ∧
      (poll scorers st bRes cRes).1.canaryWatermark = st.canaryWatermark ∧
      (poll scorers st bRes cRes).1.canaryTotal = st.canaryTotal ∧
      (poll scorers st bRes cRes).1.canaryErrors = st.canaryErrors ∧
      (poll scorers st bRes cRes).1.baselineWatermark =
        maxCreatedAt st.baselineWatermark rows) ∧
    (∀ rows crows, bRes = Except.ok rows → cRes = Except.ok crows →
      ∃ snap, (poll scorers st bRes cRes).2 =
        [MonitorEvent.scoreUpdate snap, MonitorEvent.monitorHealth .healthy]) := by
  refine ⟨?_, ?_, ?_⟩
  · intro e he
    subst he
    rfl
  · intro rows e hrows he
    subst hrows
    subst he
    exact ⟨rfl, rfl, rfl, rfl, rfl⟩
  · intro rows crows hrows hcrows
    subst hrows
    subst hcrows
    exact ⟨_, rfl⟩

/-- Claim C6 witness: the amended behaviour at a concrete
baseline-success/canary-failure tick. -/
theorem poll_failure_behaviour_witness :
    (Except.ok [exRow] : Except String (List BTQLRow)) = Except.ok [exRow] ∧
    (Except.error "down" : Except String (List BTQLRow)) = Except.error "down" ∧
    ((poll ["Q"] (initMonitorState 0) (Except.ok [exRow])
        (Except.error "down")).2 =
      [MonitorEvent.errorEvent "down", MonitorEvent.monitorHealth .degraded] ∧
    (poll ["Q"] (initMonitorState 0) (Except.ok [exRow])
        (Except.error "down")).1.canaryWatermark =
      (initMonitorState 0).canaryWatermark ∧
    (poll ["Q"] (initMonitorState 0) (Except.ok [exRow])
        (Except.error "down")).1.canaryTotal = (initMonitorState 0).canaryTotal ∧
    (poll ["Q"] (initMonitorState 0) (Except.ok [exRow])
        (Except.error "down")).1.canaryErrors =
      (initMonitorState 0).canaryErrors ∧
    (poll ["Q"] (initMonitorState 0) (Except.ok [exRow])
        (Except.error "down")).1.baselineWatermark =
      maxCreatedAt (initMonitorState 0).baselineWatermark [exRow]) :=
  ⟨rfl, rfl,
    (poll_failure_behaviour ["Q"] (initMonitorState 0) (Except.ok [exRow])
        (Except.error "down")).2.1 [exRow] "down" rfl rfl⟩

/-- Case analysis for the private `transition` helper: either nothing
changes (missing snapshot or disallowed transition) or the snapshot is
patched and the success flag is set. -/
theorem ctransition_cases (st : ControllerState) (tgt : LifecycleState)
    (p : SnapshotPatch) :
    ctransition st tgt p = (st, false) ∨
    ∃ s, st.snapshot = some s ∧ transitionAllowed s.state tgt = true ∧
      ctransition st tgt p =
        ({ st with snapshot := some (applyPatch s tgt p) }, true) := by
  unfold ctransition
  rcases h : st.snapshot with _ | s
  · exact Or.inl rfl
  · unfold transitionSnapshot assertTransitionAllowed
    dsimp only
    by_cases hal : transitionAllowed s.state tgt = true
    · rw [if_pos hal]
      exact Or.inr ⟨s, rfl, hal, rfl⟩
    · rw [if_neg hal]
      exact Or.inl rfl

/-- `transition` touches only the snapshot. -/
theorem ctransition_store (st : ControllerState) (tgt : LifecycleState)
    (p : SnapshotPatch) :
    (ctransition st tgt p).1.storeScoreSnapshots = st.storeScoreSnapshots ∧
    (ctransition st tgt p).1.latestScores = st.latestScores := by
  rcases ctransition_cases st tgt p with h | ⟨s, _, _, h⟩ <;> rw [h] <;>
    exact ⟨rfl, rfl⟩

/-- Emitting after a conditional transition touches neither the score
snapshot log nor `latestScores`. -/
theorem ite_emit_store (res : ControllerState × Bool) (name : String)
    (base : ControllerState)
    (h1 : res.1.storeScoreSnapshots = base.storeScoreSnapshots)
    (h2 : res.1.latestScores = base.latestScores) :
    (if res.2 then emitEvent res.1 name else res.1).storeScoreSnapshots =
      base.storeScoreSnapshots ∧
    (if res.2 then emitEvent res.1 name else res.1).latestScores =
      base.latestScores := by
  by_cases h : res.2 = true <;> simp [h, emitEvent, h1, h2]

/-- `advanceStage` touches only snapshot and events. -/
theorem advanceStage_store (st : ControllerState) (now : Int) :
    (advanceStage st now).storeScoreSnapshots = st.storeScoreSnapshots ∧
    (advanceStage st now).latestScores = st.latestScores := by
  unfold advanceStage
  rcases h : st.snapshot with _ | s
  · exact ⟨rfl, rfl⟩
  · dsimp only
    by_cases hlen : s.stageIndex + 1 ≥ s.config.stages.length
    · rw [if_pos hlen]
      exact ite_emit_store _ _ _ (ctransition_store _ _ _).1
        (ctransition_store _ _ _).2
    · rw [if_neg hlen]
      exact ite_emit_store _ _ _ (ctransition_store _ _ _).1
        (ctransition_store _ _ _).2

/-- `rollbackBegin` touches only snapshot. -/
theorem rollbackBegin_store (st : ControllerState) (reason : String) :
    (rollbackBegin st reason).1.storeScoreSnapshots = st.storeScoreSnapshots ∧
    (rollbackBegin st reason).1.latestScores = st.latestScores := by
  unfold rollbackBegin
  rcases h : st.snapshot with _ | s
  · exact ⟨rfl, rfl⟩
  · dsimp only
    by_cases hg : s.state = .ROLLED_BACK ∨ s.state = .PROMOTED ∨ s.state = .IDLE
    · rw [if_pos hg]
      exact ⟨rfl, rfl⟩
    · rw [if_neg hg]
      exact ctransition_store _ _ _

/-- `rollback` touches only snapshot and events. -/
theorem rollbackOp_store (st : ControllerState) (reason : String) (now : Int) :
    (rollbackOp st reason now).storeScoreSnapshots = st.storeScoreSnapshots ∧
    (rollbackOp st reason now).latestScores = st.latestScores := by
  unfold rollbackOp
  dsimp only
  by_cases h1 : (rollbackBegin st reason).2 = true
  · rw [if_pos h1]
    have hb := rollbackBegin_store st reason
    have hc := ctransition_store (rollbackBegin st reason).1 .ROLLED_BACK
      { finalState := some (some .ROLLED_BACK), completedAt := some (some now)
        canaryWeight := some 0, reason := some (some reason) }
    by_cases h2 : (ctransition (rollbackBegin st reason).1 .ROLLED_BACK
        { finalState := some (some .ROLLED_BACK), completedAt := some (some now)
          canaryWeight := some 0, reason := some (some reason) }).2 = true
    · rw [if_pos h2]
      exact ⟨(hc.1.trans hb.1 : _), (hc.2.trans hb.2 : _)⟩
    · rw [if_neg h2]
      exact ⟨hc.1.trans hb.1, hc.2.trans hb.2⟩
  · rw [if_neg h1]
    exact rollbackBegin_store st reason

/-- Claim C7 counterexample: on a `score_update` delivered while the
deployment is PAUSED, the controller records `latestScores` but returns
*before* persisting — the score-snapshot table stays empty, contradicting
the claimed persist-then-check order. -/
theorem onScoreUpdate_paused_skips_persist :
    (onScoreUpdate exCtrlPaused exScores 0 0).storeScoreSnapshots = [] ∧
    (onScoreUpdate exCtrlPaused exScores 0 0).latestScores = exScores ∧
    exCtrlPaused.storeScoreSnapshots = [] := by
  refine ⟨?_, ?_, rfl⟩ <;> rfl

/-- Claim C7 (amended): `onScoreUpdate` first records
`latestScores := snapshot` and then returns immediately when the state
is not STAGE — so the score snapshot is persisted (appended to the
score-snapshot table keyed by deployment id and stage index) only when
the deployment is in STAGE, not when it is paused or terminal. -/
theorem onScoreUpdate_persist_order (st : ControllerState) (sc : ScoreSnapshot)
    (err : ℝ) (now : Int) :
    (st.snapshot = none →
      onScoreUpdate st sc err now = { st with latestScores := sc }) ∧
    (∀ s, st.snapshot = some s → s.state ≠ .STAGE →
      onScoreUpdate st sc err now = { st with latestScores := sc }) ∧
    (∀ s, st.snapshot = some s → s.state = .STAGE →
      (onScoreUpdate st sc err now).storeScoreSnapshots =
        st.storeScoreSnapshots ++ [(s.id, s.stageIndex, sc)] ∧
      (onScoreUpdate st sc err now).latestScores = sc) := by
  refine ⟨?_, ?_, ?_⟩
  · intro h
    unfold onScoreUpdate
    dsimp only
    rw [h]
  · intro s hs hst
    unfold onScoreUpdate
    dsimp only
    rw [hs]
    dsimp only
    rw [if_pos hst]
  · intro s hs hst
    unfold onScoreUpdate
    dsimp only
    rw [hs]
    dsimp only
    rw [if_neg (by simp [hst])]
    by_cases hrb : (evaluateStage s sc err now).rollback = true
    · rw [if_pos hrb]
      obtain ⟨ha, hb⟩ := rollbackOp_store _ _ _
      exact ⟨ha.trans rfl, hb.trans rfl⟩
    · rw [if_neg hrb]
      by_cases hpm : (evaluateStage s sc err now).promote = true
      · rw [if_pos hpm]
        obtain ⟨ha, hb⟩ := advanceStage_store _ _
        exact ⟨ha.trans rfl, hb.trans rfl⟩
      · rw [if_neg hpm]
        exact ⟨rfl, rfl⟩

/-- Claim C7 witness: the amended persist behaviour on a STAGE
controller — the score snapshot is appended to the store under the
deployment id and stage index. -/
theorem onScoreUpdate_persist_order_witness :
    exCtrlStage.snapshot = some exSnapStage ∧
    exSnapStage.state = .STAGE ∧
    ((onScoreUpdate exCtrlStage exScores 0 0).storeScoreSnapshots =
      exCtrlStage.storeScoreSnapshots ++
        [(exSnapStage.id, exSnapStage.stageIndex, exScores)] ∧
    (onScoreUpdate exCtrlStage exScores 0 0).latestScores = exScores) :=
  ⟨rfl, rfl,
    (onScoreUpdate_persist_order exCtrlStage exScores 0 0).2.2 exSnapStage rfl rfl⟩

/-- A controller state with the same snapshot inherits the invariant. -/
theorem cinv_of_eq {st st' : ControllerState} (h : CInv st)
    (hs : st'.snapshot = st.snapshot) : CInv st' := by
  intro s hsome
  exact h s (hs ▸ hsome)

/-- The `transition` helper on an allowed pair patches the snapshot. -/
theorem ctransition_of_allowed (st : ControllerState) (tgt : LifecycleState)
    (p : SnapshotPatch) (s : DeploymentSnapshot) (hs : st.snapshot = some s)
    (hall : transitionAllowed s.state tgt = true) :
    ctransition st tgt p =
      ({ st with snapshot := some (applyPatch s tgt p) }, true) := by
  unfold ctransition transitionSnapshot assertTransitionAllowed
  rw [hs]
  dsimp only
  rw [if_pos hall]
  rfl

/-- `startDeployment` preserves the snapshot invariant: the new
deployment lands in STAGE 0 carrying the first stage's weight. -/
theorem startDeployment_cinv (st : ControllerState) (cfg : DeploymentConfig)
    (did : String) (now : Int) (h : CInv st) :
    CInv (startDeployment st cfg did now) := by
  unfold startDeployment
  rcases hstages : cfg.stages with _ | ⟨first, rest⟩
  · exact h
  · dsimp only
    have hct := ctransition_of_allowed
      (emitEvent { st with snapshot := some {
          id := did, name := cfg.name, config := cfg
          state := .PENDING, stageIndex := 0
          stageEnteredAt := now, startedAt := now
          canaryWeight := first.weight } } "deployment_started")
      LifecycleState.STAGE
      { canaryWeight := some first.weight, stageEnteredAt := some now }
      { id := did, name := cfg.name, config := cfg
        state := .PENDING, stageIndex := 0
        stageEnteredAt := now, startedAt := now
        canaryWeight := first.weight }
      rfl rfl
    rw [hct]
    intro s'' hs''
    rw [Option.some.injEq] at hs''
    subst hs''
    refine ⟨?_, ?_, ?_, ?_, ?_, ?_⟩ <;> simp [applyPatch, SnapInv]
    exact ⟨first, by simp [hstages], rfl⟩

/-- An event emission after a conditional transition keeps the
invariant (the snapshot is untouched). -/
theorem cinv_emit_ite (res : ControllerState × Bool) (name : String)
    (h : CInv res.1) :
    CInv (if res.2 then emitEvent res.1 name else res.1) := by
  by_cases hb : res.2 = true
  · rw [if_pos hb]
    exact cinv_of_eq h rfl
  · rw [if_neg hb]
    exact h

/-- The `transition` helper keeps the invariant as soon as the patched
snapshot satisfies it on every allowed source. -/
theorem cinv_ctransition (st : ControllerState) (tgt : LifecycleState)
    (p : SnapshotPatch) (h : CInv st)
    (hpatch : ∀ s, st.snapshot = some s → transitionAllowed s.state tgt = true →
      SnapInv (applyPatch s tgt p)) :
    CInv (ctransition st tgt p).1 := by
  rcases ctransition_cases st tgt p with hc | ⟨s2, hs2, hall, hc⟩
  · rw [hc]
    exact h
  · rw [hc]
    intro s'' hs''
    dsimp only at hs''
    rw [Option.some.injEq] at hs''
    exact hs'' ▸ hpatch s2 hs2 hall

/-- `advanceStage` preserves the snapshot invariant: a final-stage
advance lands in PROMOTED with weight 100, an inner advance lands in
STAGE with the next stage's weight. -/
theorem advanceStage_cinv (st : ControllerState) (now : Int) (h : CInv st) :
    CInv (advanceStage st now) := by
  unfold advanceStage
  rcases hs : st.snapshot with _ | s
  · exact h
  · dsimp only
    by_cases hlen : s.stageIndex + 1 ≥ s.config.stages.length
    · rw [if_pos hlen]
      refine cinv_emit_ite _ _ (cinv_ctransition _ _ _ h ?_)
      intro s2 hs2 hall
      refine ⟨?_, ?_, ?_, ?_, ?_, ?_⟩ <;> simp [applyPatch, SnapInv]
    · rw [if_neg hlen]
      refine cinv_emit_ite _ _ (cinv_ctransition _ _ _ h ?_)
      intro s2 hs2 hall
      rw [hs] at hs2
      injection hs2 with hs2
      subst hs2
      cases hnext : s.config.stages.get? (s.stageIndex + 1) with
      | none =>
        exact absurd (List.get?_eq_none.mp hnext) (by omega)
      | some next =>
        refine ⟨?_, ?_, ?_, ?_, ?_, ?_⟩ <;> simp [applyPatch, SnapInv, hnext]
        exact ⟨next, by rw [← List.get?_eq_getElem?]; exact hnext, rfl⟩

/-- `pause` preserves the snapshot invariant: the PAUSED snapshot keeps
the stage weight and records the paused index. -/
theorem pauseOp_cinv (st : ControllerState) (h : CInv st) : CInv (pauseOp st) := by
  unfold pauseOp
  rcases hs : st.snapshot with _ | s
  · exact h
  · dsimp only
    by_cases hst : s.state ≠ .STAGE
    · rw [if_pos hst]
      exact h
    · rw [if_neg hst]
      have hstage : s.state = .STAGE := not_not.mp hst
      obtain ⟨h1, _, _, _, _, _⟩ := h s hs
      obtain ⟨stage, hget, hw⟩ := h1 (Or.inl hstage)
      refine cinv_emit_ite _ _ (cinv_ctransition _ _ _ h ?_)
      intro s2 hs2 hall
      rw [hs] at hs2
      injection hs2 with hs2
      subst hs2
      refine ⟨?_, ?_, ?_, ?_, ?_, ?_⟩ <;> simp [applyPatch, SnapInv]
      exact ⟨stage, by rw [← List.get?_eq_getElem?]; exact hget, hw⟩

/-- `resume` preserves the snapshot invariant: it returns to STAGE at
the paused index and re-derives the weight from the stage table. -/
theorem resumeOp_cinv (st : ControllerState) (now : Int) (h : CInv st) :
    CInv (resumeOp st now) := by
  unfold resumeOp
  rcases hs : st.snapshot with _ | s
  · exact h
  · dsimp only
    by_cases hst : s.state ≠ .PAUSED
    · rw [if_pos hst]
      exact h
    · rw [if_neg hst]
      have hstp : s.state = .PAUSED := not_not.mp hst
      obtain ⟨h1, _, _, h4, _, _⟩ := h s hs
      have hpsi : s.pausedStageIndex = some s.stageIndex := h4 hstp
      obtain ⟨stage, hget, hw⟩ := h1 (Or.inr hstp)
      obtain ⟨hlt, -⟩ := List.get?_eq_some.mp hget
      rw [hpsi]
      simp only [Option.getD_some]
      rw [if_neg (by omega)]
      refine cinv_emit_ite _ _ (cinv_ctransition _ _ _ h ?_)
      intro s2 hs2 hall
      rw [hs] at hs2
      injection hs2 with hs2
      subst hs2
      have hget' : s.config.stages[s.stageIndex]? = some stage := by
        rw [← List.get?_eq_getElem?]
        exact hget
      refine ⟨?_, ?_, ?_, ?_, ?_, ?_⟩ <;> simp [applyPatch, SnapInv, hget']

/-- The first rollback transition preserves the snapshot invariant: the
ROLLING_BACK snapshot carries weight 0. -/
theorem rollbackBegin_cinv (st : ControllerState) (reason : String) (h : CInv st) :
    CInv (rollbackBegin st reason).1 := by
  unfold rollbackBegin
  rcases hs : st.snapshot with _ | s
  · exact h
  · dsimp only
    by_cases hg : s.state = .ROLLED_BACK ∨ s.state = .PROMOTED ∨ s.state = .IDLE
    · rw [if_pos hg]
      exact h
    · rw [if_neg hg]
      refine cinv_ctransition _ _ _ h ?_
      intro s2 hs2 hall
      refine ⟨?_, ?_, ?_, ?_, ?_, ?_⟩ <;> simp [applyPatch, SnapInv]

/-- `rollback` preserves the snapshot invariant: both rollback
snapshots carry weight 0. -/
theorem rollbackOp_cinv (st : ControllerState) (reason : String) (now : Int)
    (h : CInv st) : CInv (rollbackOp st reason now) := by
  unfold rollbackOp
  dsimp only
  by_cases h1 : (rollbackBegin st reason).2 = true
  · rw [if_pos h1]
    have hb : CInv (rollbackBegin st reason).1 := rollbackBegin_cinv st reason h
    have hc : CInv (ctransition (rollbackBegin st reason).1 .ROLLED_BACK
        { finalState := some (some .ROLLED_BACK), completedAt := some (some now)
          canaryWeight := some 0, reason := some (some reason) }).1 := by
      refine cinv_ctransition _ _ _ hb ?_
      intro s2 hs2 hall
      refine ⟨?_, ?_, ?_, ?_, ?_, ?_⟩ <;> simp [applyPatch, SnapInv]
    by_cases h2 : (ctransition (rollbackBegin st reason).1 .ROLLED_BACK
        { finalState := some (some .ROLLED_BACK), completedAt := some (some now)
          canaryWeight := some 0, reason := some (some reason) }).2 = true
    · rw [if_pos h2]
      exact cinv_of_eq hc rfl
    · rw [if_neg h2]
      exact hc
  · rw [if_neg h1]
    exact rollbackBegin_cinv st reason h

/-- `promote` preserves the snapshot invariant (it defers to
`advanceStage` or does nothing). -/
theorem promoteOp_cinv (st : ControllerState) (force : Bool) (err : ℝ)
    (now : Int) (h : CInv st) : CInv (promoteOp st force err now) := by
  unfold promoteOp
  rcases hs : st.snapshot with _ | s
  · exact h
  · dsimp only
    by_cases hg : s.state ≠ .STAGE ∧ s.state ≠ .PAUSED
    · rw [if_pos hg]
      exact h
    · rw [if_neg hg]
      by_cases hf : (!force) = true ∧ s.state = .STAGE
      · rw [if_pos hf]
        by_cases hd : (evaluateStage s st.latestScores err now).promote = true
        · rw [if_pos hd]
          exact advanceStage_cinv st now h
        · rw [if_neg hd]
          exact h
      · rw [if_neg hf]
        exact advanceStage_cinv st now h

/-- `onScoreUpdate` preserves the snapshot invariant (it only reads the
snapshot, then defers to rollback or advance). -/
theorem onScoreUpdate_cinv (st : ControllerState) (sc : ScoreSnapshot) (err : ℝ)
    (now : Int) (h : CInv st) : CInv (onScoreUpdate st sc err now) := by
  unfold onScoreUpdate
  dsimp only
  rcases hs : st.snapshot with _ | s
  · exact cinv_of_eq h hs.symm
  · dsimp only
    by_cases hst : s.state ≠ .STAGE
    · rw [if_pos hst]
      exact cinv_of_eq h hs.symm
    · rw [if_neg hst]
      by_cases hrb : (evaluateStage s sc err now).rollback = true
      · rw [if_pos hrb]
        exact rollbackOp_cinv _ _ _ (cinv_of_eq h hs.symm)
      · rw [if_neg hrb]
        by_cases hpm : (evaluateStage s sc err now).promote = true
        · rw [if_pos hpm]
          exact advanceStage_cinv _ _ (cinv_of_eq h hs.symm)
        · rw [if_neg hpm]
          exact cinv_of_eq h hs.symm

/-- Every reachable controller state satisfies the snapshot invariant. -/
theorem reach_cinv (st : ControllerState) (h : Reach st) : CInv st := by
  induction h with
  | init => exact fun s hs => Option.noConfusion hs
  | start st cfg did now _ ih => exact startDeployment_cinv st cfg did now ih
  | scoreUpdate st sc err now _ ih => exact onScoreUpdate_cinv st sc err now ih
  | pause st _ ih => exact pauseOp_cinv st ih
  | resume st now _ ih => exact resumeOp_cinv st now ih
  | promote st force err now _ ih => exact promoteOp_cinv st force err now ih
  | rollback st reason now _ ih => exact rollbackOp_cinv st reason now ih
  | rollbackStep st reason _ ih => exact rollbackBegin_cinv st reason ih

/-- Claim C3: on every snapshot reachable through the controller
operations, the canary weight equals the current stage's configured
weight in STAGE and PAUSED, is 0 in ROLLING_BACK and ROLLED_BACK, and is
100 in PROMOTED. -/
theorem reachable_weight_invariant (st : ControllerState) (h : Reach st)
    (s : DeploymentSnapshot) (hs : st.snapshot = some s) :
    ((s.state = .STAGE ∨ s.state = .PAUSED) →
      ∃ stage, s.config.stages.get? s.stageIndex = some stage ∧
        s.canaryWeight = stage.weight) ∧
    ((s.state = .ROLLING_BACK ∨ s.state = .ROLLED_BACK) → s.canaryWeight = 0) ∧
    (s.state = .PROMOTED → s.canaryWeight = 100) := by
  obtain ⟨h1, h2, h3, -, -, -⟩ := reach_cinv st h s hs
  exact ⟨h1, h2, h3⟩

/-- Claim C3 witness: the freshly started example deployment sits in
STAGE 0 with the first stage's weight. -/
theorem reachable_weight_invariant_witness :
    (startDeployment initController exCfg "d1" 0).snapshot = some exSnapStarted ∧
    (((exSnapStarted.state = .STAGE ∨ exSnapStarted.state = .PAUSED) →
      ∃ stage, exSnapStarted.config.stages.get? exSnapStarted.stageIndex =
          some stage ∧ exSnapStarted.canaryWeight = stage.weight) ∧
    ((exSnapStarted.state = .ROLLING_BACK ∨ exSnapStarted.state = .ROLLED_BACK) →
      exSnapStarted.canaryWeight = 0) ∧
    (exSnapStarted.state = .PROMOTED → exSnapStarted.canaryWeight = 100)) :=
  ⟨rfl, reachable_weight_invariant _
    (Reach.start initController exCfg "d1" 0 Reach.init) exSnapStarted rfl⟩

end BrainCanary
